import Mathlib

/-!
Shallow embedding of the cookunity-mcp server core (TypeScript sources under
src/): the session manager (src/services/auth.ts), the GraphQL gateway
(src/services/api.ts), the response normalizer (src/services/helpers.ts) and
the order-confirmation / listing tool handlers (cart tools, src/tools/menu.ts,
src/tools/user.ts).  JavaScript millisecond timestamps are modelled as Int,
quantities and counts as Nat, JS strings as Lean String (list-of-char
substring semantics for String.prototype.includes), absent/nullable fields as
Option, thrown errors as Except String.
-/

namespace CookUnity

/-! ### Session manager state (src/services/auth.ts) -/

/-- `AuthTokens` (src/types.ts): the cached credential record.
`expires_at` is a JS millisecond timestamp. -/
structure AuthTokens where
  access_token : String
  refresh_token : Option String
  expires_at : Int
deriving DecidableEq, Repr

/-- `CookUnityAuth.isTokenValid` (auth.ts line 27-29):
`Date.now() < tokens.expires_at - 60000`, with the current clock reading
passed explicitly as `now`. -/
def isTokenValid (tokens : AuthTokens) (now : Int) : Bool :=
  now < tokens.expires_at - 60000

/-- `CookUnityAuth.getAccessToken` (auth.ts line 19-25).  The mutable field
`this.tokens : AuthTokens | null` is the explicit state; `handshake` models
`this.authenticate()` returning the freshly stored tokens together with the
number of network requests it issued; the result carries the returned token
string, the post-call state, and the number of network requests made by this
call (0 on a cache hit). -/
def getAccessToken (handshake : Unit → AuthTokens × Nat)
    (tokens : Option AuthTokens) (now : Int) :
    String × Option AuthTokens × Nat :=
  match tokens with
  | some t =>
    if isTokenValid t now then (t.access_token, some t, 0)
    else
      let (fresh, calls) := handshake ()
      (fresh.access_token, some fresh, calls)
  | none =>
    let (fresh, calls) := handshake ()
    (fresh.access_token, some fresh, calls)

/-- The body of the token-exchange response (auth.ts line 89:
`{ access_token?: string; refresh_token?: string; expires_in?: number }`,
`expires_in` in seconds). -/
structure TokenResponse where
  access_token : Option String
  refresh_token : Option String
  expires_in : Option Nat
deriving DecidableEq, Repr

/-- Token storage at the end of `CookUnityAuth.authenticate` (auth.ts line
89-96): missing access token is fatal, otherwise
`expires_at = Date.now() + (expires_in ?? 86400) * 1000` and the optional
refresh token is stored unchanged.  `now` is the handshake completion time. -/
def storeTokens (now : Int) (td : TokenResponse) : Except String AuthTokens :=
  match td.access_token with
  | none => .error "Failed to get access token"
  | some tok =>
    .ok { access_token := tok
          refresh_token := td.refresh_token
          expires_at := now + (td.expires_in.getD 86400 : Nat) * 1000 }

/-! ### Authorize redirect loop (auth.ts line 62-77) -/

/-- One hop of the authorize redirect chain, as observed by the loop body:
`location` is the `Location` response header (already resolved to an absolute
URL, auth.ts line 71), and `code` is the `code` query parameter parsed from
that location (auth.ts line 72-73).  URL-string parsing itself is abstracted
into the field. -/
structure HopResp where
  location : Option String
  code : Option String
deriving DecidableEq, Repr

/-- The `for (let i = 0; i < 5; i++)` redirect loop of
`CookUnityAuth.authenticate` (auth.ts line 64-76), with `resp j` the server
response to the j-th GET.  Returns the code found (if any) paired with the
number of hops requested; a hop without a `Location` header throws.  `i` is
the current hop index and `fuel` the remaining iterations (`5 - i`). -/
def followAux (resp : Nat → HopResp) : Nat → Nat → Except String (Option String × Nat)
  | i, 0 => .ok (none, i)
  | i, fuel + 1 =>
    match (resp i).location with
    | none => .error "No redirect location in authorize flow"
    | some _ =>
      match (resp i).code with
      | some c => .ok (some c, i + 1)
      | none => followAux resp (i + 1) fuel

/-- Steps 2 of `CookUnityAuth.authenticate` (auth.ts line 62-77): run the
redirect loop from hop 0 with cap 5; if the loop ends without a code, fail
with `Failed to obtain authorization code`. -/
def getAuthCode (resp : Nat → HopResp) : Except String (String × Nat) :=
  match followAux resp 0 5 with
  | .error e => .error e
  | .ok (some c, n) => .ok (c, n)
  | .ok (none, _) => .error "Failed to obtain authorization code"

end CookUnity

namespace CookUnity

/-! ### Delivery-day normalization (src/services/helpers.ts, src/types.ts)

Upstream numeric prices are only passed through or defaulted to 0, never
computed with, so the JS `number` fields carrying prices are modelled as Int.
TS field types declare several strings as required, but the normalizer guards
them with optional chaining / `??` defaults, so they are modelled as Option
(matching the runtime handling the code defends against). -/

/-- `CartProduct` (src/types.ts), restricted to the fields the normalizer and
the order-confirmation handler read. -/
structure CartProduct where
  name : Option String
  inventoryId : Option String
  price_incl_tax : Option Int
  chef_firstname : Option String
  chef_lastname : Option String
deriving DecidableEq, Repr

/-- `CartEntry` (src/types.ts): one cart line. -/
structure CartEntry where
  product : Option CartProduct
  qty : Nat
deriving DecidableEq, Repr

/-- `Cutoff` (src/types.ts). -/
structure Cutoff where
  time : String
  userTimeZone : String
deriving DecidableEq, Repr

/-- `OrderItem.product` (src/types.ts), fields read by `formatDelivery`. -/
structure OrderProduct where
  name : Option String
  inventoryId : Option String
  chef_firstname : Option String
  chef_lastname : Option String
deriving DecidableEq, Repr

/-- `OrderItemPrice` (src/types.ts). -/
structure OrderItemPrice where
  price : Option Int
deriving DecidableEq, Repr

/-- `OrderItem` (src/types.ts). -/
structure OrderItem where
  qty : Nat
  product : Option OrderProduct
  price : Option OrderItemPrice
deriving DecidableEq, Repr

/-- `OrderStatus` (src/types.ts), the `status` field read by the normalizer. -/
structure OrderStatus where
  status : Option String
deriving DecidableEq, Repr

/-- `OrderInfo` (src/types.ts). -/
structure OrderInfo where
  id : String
  grandTotal : Option Int
  orderStatus : Option OrderStatus
  items : List OrderItem
deriving DecidableEq, Repr

/-- `RecommendationMeal` (src/types.ts), fields read by the normalizer. -/
structure RecommendationMeal where
  name : Option String
  inventoryId : Option String
  chef_firstname : Option String
  chef_lastname : Option String
  qty : Option Nat
deriving DecidableEq, Repr

/-- `Recommendation` (src/types.ts). -/
structure Recommendation where
  meals : List RecommendationMeal
deriving DecidableEq, Repr

/-- `UpcomingDay` (src/types.ts), fields read by `formatDelivery` and the
order-confirmation handler. -/
structure UpcomingDay where
  date : String
  displayDate : String
  menuAvailable : Bool
  canEdit : Bool
  skip : Bool
  isPaused : Bool
  cutoff : Option Cutoff
  cart : Option (List CartEntry)
  order : Option OrderInfo
  recommendation : Option Recommendation
deriving DecidableEq, Repr

/-- The four derived delivery-day status values
(`DeliveryInfo.status` in src/types.ts). -/
inductive DeliveryStatus
  | locked
  | skipped
  | paused
  | active
deriving DecidableEq, Repr

/-- `DeliveryMealInfo` (src/types.ts): one normalized meal line. -/
structure DeliveryMealInfo where
  name : String
  inventory_id : String
  quantity : Nat
  price : Int
  chef : String
deriving DecidableEq, Repr

/-- The normalized `order` sub-record produced by `formatDelivery`. -/
structure OrderSummary where
  id : String
  status : Option String
  grand_total : Int
  items : List DeliveryMealInfo
  item_count : Nat
deriving DecidableEq, Repr

/-- `DeliveryInfo` (src/types.ts): the normalized delivery-day record. -/
structure DeliveryInfo where
  date : String
  status : DeliveryStatus
  can_edit : Bool
  menu_available : Bool
  cutoff : Option String
  cutoff_timezone : Option String
  cart_items : List DeliveryMealInfo
  cart_count : Nat
  order : Option OrderSummary
  recommendation_items : List DeliveryMealInfo
  recommendation_count : Nat
deriving DecidableEq, Repr

/-- The trimmed chef-name concatenation
`` `${fn ?? ""} ${ln ?? ""}`.trim() `` used throughout helpers.ts. -/
def chefName (fn ln : Option String) : String :=
  (fn.getD "" ++ " " ++ ln.getD "").trim

/-- `formatDelivery` (helpers.ts line 40-95).  The status chain is the
nested conditional expression of the source (line 41-47); JS `x || 0` on a
quantity is the identity on Nat, so the `reduce` sums are foldl sums. -/
def formatDelivery (day : UpcomingDay) : DeliveryInfo :=
  let status :=
    if !day.canEdit then DeliveryStatus.locked
    else if day.skip then DeliveryStatus.skipped
    else if day.isPaused then DeliveryStatus.paused
    else DeliveryStatus.active
  let cartItems := (day.cart.getD []).map fun c =>
    { name := (c.product.bind CartProduct.name).getD "Unknown"
      inventory_id := (c.product.bind CartProduct.inventoryId).getD ""
      quantity := c.qty
      price := (c.product.bind CartProduct.price_incl_tax).getD 0
      chef := chefName (c.product.bind CartProduct.chef_firstname)
                       (c.product.bind CartProduct.chef_lastname) : DeliveryMealInfo }
  let orderInfo :=
    match day.order with
    | some o =>
      if o.items.length > 0 then
        some { id := o.id
               status := o.orderStatus.bind OrderStatus.status
               grand_total := o.grandTotal.getD 0
               items := o.items.map fun item =>
                 { name := (item.product.bind OrderProduct.name).getD "Unknown"
                   inventory_id := (item.product.bind OrderProduct.inventoryId).getD ""
                   quantity := item.qty
                   price := (item.price.bind OrderItemPrice.price).getD 0
                   chef := chefName (item.product.bind OrderProduct.chef_firstname)
                                    (item.product.bind OrderProduct.chef_lastname) }
               item_count := o.items.foldl (fun sum i => sum + i.qty) 0 : OrderSummary }
      else none
    | none => none
  let recMeals := (day.recommendation.map Recommendation.meals).getD []
  let recommendationItems := recMeals.map fun m =>
    { name := m.name.getD "Unknown"
      inventory_id := m.inventoryId.getD ""
      quantity := m.qty.getD 1
      price := 0
      chef := chefName m.chef_firstname m.chef_lastname : DeliveryMealInfo }
  { date := day.displayDate
    status := status
    can_edit := day.canEdit
    menu_available := day.menuAvailable
    cutoff := day.cutoff.map Cutoff.time
    cutoff_timezone := day.cutoff.map Cutoff.userTimeZone
    cart_items := cartItems
    cart_count := cartItems.foldl (fun sum c => sum + c.quantity) 0
    order := orderInfo
    recommendation_items := recommendationItems
    recommendation_count := recommendationItems.foldl (fun sum r => sum + r.quantity) 0 }

end CookUnity

namespace CookUnity

/-! ### Local pagination (src/tools/menu.ts line 66-77 / 140-152,
src/tools/user.ts line 80-92) and the order-history output
(src/tools/user.ts line 144-181) -/

/-- The paginated output shape shared by the menu, search and list-orders
handlers: `next_offset := none` models the `next_offset` key being absent
from the JS object (the conditional spread at menu.ts line 77). -/
structure PageOutput (α : Type) where
  total : Nat
  count : Nat
  offset : Nat
  has_more : Bool
  next_offset : Option Nat
  items : List α
deriving DecidableEq, Repr

/-- The local pagination computation of the menu handler (menu.ts line
66-77), repeated verbatim in the search handler (menu.ts line 140-152) and
the list-orders handler (user.ts line 80-92): slice `[offset, offset+limit)`
of the fetched-and-filtered collection, `total` its full length, `has_more`
when `total > offset + page length`, `next_offset` only when `has_more`. -/
def paginate {α : Type} (items : List α) (offset limit : Nat) : PageOutput α :=
  let total := items.length
  let paged := (items.drop offset).take limit
  let hasMore := decide (total > offset + paged.length)
  { total := total
    count := paged.length
    offset := offset
    has_more := hasMore
    next_offset := if hasMore then some (offset + paged.length) else none
    items := paged }

/-- The structured output of the order-history handler (user.ts line 181):
`{ total, offset, invoices }` — no `has_more` and no `next_offset` field
exist in this shape, and `total` is the length of whatever invoice page the
upstream returned for the forwarded offset/limit. -/
structure OrderHistoryOutput (α : Type) where
  total : Nat
  offset : Nat
  invoices : List α
deriving DecidableEq, Repr

/-- The pagination behaviour of the order-history handler (user.ts line 144-181):
`offset`/`limit` are forwarded to the upstream invoices query
(`api.getInvoices(params.from, params.to, params.offset, params.limit)`,
api.ts line 253-291) and `total = invoices.length` is computed on the
returned page. -/
def orderHistoryOutput {α : Type} (invoices : List α) (offset : Nat) :
    OrderHistoryOutput α :=
  { total := invoices.length, offset := offset, invoices := invoices }

/-- An upstream invoices endpoint that honours the forwarded offset/limit by
slicing the full invoice collection (the behaviour presumed by the 45-item
pagination scenario of the spec). -/
def invoicesUpstream {α : Type} (full : List α) (offset limit : Nat) : List α :=
  (full.drop offset).take limit

end CookUnity

namespace CookUnity

/-! ### Menu model and client-side keyword search
(src/types.ts, src/services/api.ts line 293-308) -/

/-- `MealSearchBy` (src/types.ts): the tag block searched by `searchMeals`. -/
structure MealSearchBy where
  cuisines : List String
  chefFirstName : String
  chefLastName : String
  dietTags : List String
  ingredients : List String
  proteinTags : List String
deriving DecidableEq, Repr

/-- `MealCategory` (src/types.ts). -/
structure MealCategory where
  id : String
  title : String
  label : String
deriving DecidableEq, Repr

/-- `Meal` (src/types.ts), restricted to the fields `searchMeals` reads. -/
structure Meal where
  id : String
  name : String
  shortDescription : String
  searchBy : MealSearchBy
  category : MealCategory
deriving DecidableEq, Repr

/-- `Menu` (src/types.ts). -/
structure Menu where
  meals : List Meal
deriving DecidableEq, Repr

/-- JS `String.prototype.includes`: contiguous-substring test, on the
character lists underlying the strings. -/
def strIncludes (s term : String) : Bool := decide (term.data <:+: s.data)

/-- JS `String.prototype.toLowerCase`, modelled as per-character ASCII case
folding (the same folding as core `String.toLower`, written over the
character list so that it evaluates by structural recursion). -/
def strToLower (s : String) : String := String.mk (s.data.map Char.toLower)

/-- The per-meal predicate of `CookUnityAPI.searchMeals` (api.ts line
296-307).  The early-return `if ... return true` chain of the source is exactly
this left-to-right boolean disjunction; every field and the query are
lowercased before the substring test. -/
def mealMatches (term : String) (meal : Meal) : Bool :=
  strIncludes (strToLower meal.name) term
  || strIncludes (strToLower meal.shortDescription) term
  || meal.searchBy.cuisines.any (fun c => strIncludes (strToLower c) term)
  || meal.searchBy.dietTags.any (fun t => strIncludes (strToLower t) term)
  || meal.searchBy.ingredients.any (fun i => strIncludes (strToLower i) term)
  || meal.searchBy.proteinTags.any (fun p => strIncludes (strToLower p) term)
  || strIncludes
      (strToLower (meal.searchBy.chefFirstName ++ " " ++ meal.searchBy.chefLastName)) term
  || strIncludes (strToLower meal.category.title) term

/-- `CookUnityAPI.searchMeals` (api.ts line 293-308): fetch the full menu for
the date (here the already-fetched `menu`), lowercase the keyword once, and
filter the meal list client-side. -/
def searchMeals (keyword : String) (menu : Menu) : List Meal :=
  menu.meals.filter (fun meal => mealMatches (strToLower keyword) meal)

/-- A concrete meal for the search scenario of the spec: named
"Grilled Salmon Bowl", diet tag "pescatarian", no field containing
"vegan". -/
def salmonMeal : Meal :=
  { id := "m1"
    name := "Grilled Salmon Bowl"
    shortDescription := "A hearty salmon bowl"
    searchBy :=
      { cuisines := ["American"]
        chefFirstName := "Ana"
        chefLastName := "Lee"
        dietTags := ["pescatarian"]
        ingredients := ["rice", "salmon"]
        proteinTags := ["fish"] }
    category := { id := "c1", title := "Bowls", label := "bowls" } }

/-- A one-meal menu holding `salmonMeal`. -/
def salmonMenu : Menu := { meals := [salmonMeal] }

/-! ### GraphQL gateway error taxonomy (src/services/api.ts line 327-363) -/

/-- The parsed body of a 2xx GraphQL response (api.ts line 349): the `data`
payload plus the optional `errors` list, reduced to its messages.  A present
but empty list still counts as present (JS `if (result.errors)` is truthy on
`[]`). -/
structure GraphQLBody (δ : Type) where
  dat : δ
  errors : Option (List String)
deriving DecidableEq, Repr

/-- The outcome of the POST in `executeGraphQL`: a 2xx response with a body,
an HTTP failure surfaced as an AxiosError with an optional status code and a
message, or a non-Axios exception (rethrown unchanged by the catch block). -/
inductive TransportOutcome (δ : Type)
  | success (body : GraphQLBody δ)
  | httpFailure (status : Option Nat) (msg : String)
  | failure (msg : String)
deriving DecidableEq, Repr

/-- `CookUnityAPI.executeGraphQL` (api.ts line 327-363), as a function of the
transport outcome: a GraphQL-level error list yields one consolidated
comma-joined message; HTTP 401 and 429 yield their dedicated messages; any
other HTTP failure yields the generic transport message carrying the status
code (or "unknown"). -/
def executeGraphQL {δ : Type} (outcome : TransportOutcome δ) : Except String δ :=
  match outcome with
  | .success body =>
    match body.errors with
    | some errs => .error ("GraphQL errors: " ++ String.intercalate ", " errs)
    | none => .ok body.dat
  | .httpFailure status msg =>
    if status = some 401 then
      .error "Authentication expired. Please check your COOKUNITY_EMAIL and COOKUNITY_PASSWORD."
    else if status = some 429 then
      .error "Rate limited by CookUnity API. Please wait before retrying."
    else
      .error ("CookUnity API error (HTTP "
        ++ (match status with | some s => toString s | none => "unknown")
        ++ "): " ++ msg)
  | .failure msg => .error msg

end CookUnity

namespace CookUnity

/-! ### Order-confirmation handler
(`cookunity_confirm_order`, cart-tools section of src/types.ts) -/

/-- `DeliveryDay` (src/types.ts): one configured delivery-day window of the
user profile.  The handler guards the window fields with `?? default`, so
they are modelled as Options. -/
structure DeliveryDay where
  day : String
  time_start : Option String
  time_end : Option String
deriving DecidableEq, Repr

/-- `UserInfo` (src/types.ts), restricted to the field the confirm handler
reads; `deliveryDays` is guarded with `?.length`. -/
structure UserInfo where
  deliveryDays : Option (List DeliveryDay)
deriving DecidableEq, Repr

/-- The result union of the `createOrder` mutation (api.ts line 211-237):
`OrderCreation { id ... }` or `OrderCreationError { error outOfStockIds }`. -/
inductive CreateOrderResult
  | creation (id : String)
  | creationError (error : Option String) (outOfStockIds : Option (List String))
deriving DecidableEq, Repr

/-- One upstream GraphQL request the confirm-order handler can issue, in
issue order; `createOrderReq` records the delivery window and product lines
sent. -/
inductive UpstreamRequest
  | upcomingDaysReq
  | userInfoReq
  | createOrderReq (wstart wend : String) (products : List (Nat × Option String))
deriving DecidableEq, Repr

/-- The upstream responses a single confirm-order call would observe. -/
structure ConfirmEnv where
  upcomingDays : List UpcomingDay
  userInfo : Except String UserInfo
  createOrder : CreateOrderResult
deriving Repr

/-- The caller-visible outcome of the confirm-order handler (the four
`return` shapes of the handler body). -/
inductive ConfirmResult
  | noDelivery (date : String)
  | emptyCart (date : String)
  | orderFailed (msg : String) (outOfStock : List String)
  | confirmed (id : String)
deriving DecidableEq, Repr

/-- The delivery-window block of the confirm handler: start/end default to
"11:00"/"20:00"; a successful profile fetch with a non-empty `deliveryDays`
overrides them field-by-field (`time_start ?? start`, `time_end ?? end`);
a failed fetch is swallowed (`catch {}`) leaving the defaults. -/
def deliveryWindow (userInfo : Except String UserInfo) : String × String :=
  match userInfo with
  | .error _ => ("11:00", "20:00")
  | .ok u =>
    match u.deliveryDays with
    | some (d :: _) => (d.time_start.getD "11:00", d.time_end.getD "20:00")
    | _ => ("11:00", "20:00")

/-- Maps the `createOrder` result to the handler outcome: an
`OrderCreationError` yields the failure message (`error || "Unknown error"`)
with the out-of-stock ids (`outOfStockIds` when non-null), otherwise the
confirmed order id. -/
def orderOutcome (r : CreateOrderResult) : ConfirmResult :=
  match r with
  | .creationError err oos => .orderFailed (err.getD "Unknown error") (oos.getD [])
  | .creation id => .confirmed id

/-- The `cookunity_confirm_order` handler (cart-tools section of
src/types.ts): fetch upcoming days, locate the target date, reject a missing
day or an empty/missing cart, build the product lines
(`{ qty, inventoryId: item.product.inventoryId }`, the optional product left
unresolved here), fetch the profile for the delivery window (failure
swallowed), and submit `createOrder`.  The second component is the ordered
list of upstream requests issued. -/
def confirmOrder (env : ConfirmEnv) (date : String) :
    ConfirmResult × List UpstreamRequest :=
  match env.upcomingDays.find? (fun d => d.date == date) with
  | none => (.noDelivery date, [UpstreamRequest.upcomingDaysReq])
  | some day =>
    match day.cart with
    | none => (.emptyCart date, [UpstreamRequest.upcomingDaysReq])
    | some cart =>
      if cart.isEmpty then (.emptyCart date, [UpstreamRequest.upcomingDaysReq])
      else
        let products := cart.map fun item =>
          (item.qty, item.product.bind CartProduct.inventoryId)
        let w := deliveryWindow env.userInfo
        (orderOutcome env.createOrder,
          [UpstreamRequest.upcomingDaysReq, UpstreamRequest.userInfoReq,
           UpstreamRequest.createOrderReq w.1 w.2 products])

/-- A concrete upcoming day for 2026-03-02 whose cart is present but
empty. -/
def emptyCartDay : UpcomingDay :=
  { date := "2026-03-02"
    displayDate := "Mon, Mar 2"
    menuAvailable := true
    canEdit := true
    skip := false
    isPaused := false
    cutoff := none
    cart := some []
    order := none
    recommendation := none }

end CookUnity

namespace CookUnity

/-! ### Theorems: session manager -/

/-- **C1.** The validity check of the session manager holds iff `now` is strictly
below the expiry instant minus 60 seconds (60000 ms); it holds at expiry
minus 61 s and fails at expiry minus 59 s. -/
theorem isTokenValid_iff_margin (t : AuthTokens) (now : Int) :
    (isTokenValid t now = true ↔ now < t.expires_at - 60000)
    ∧ isTokenValid t (t.expires_at - 61000) = true
    ∧ isTokenValid t (t.expires_at - 59000) = false := by
  refine ⟨?_, ?_, ?_⟩
  · simp [isTokenValid]
  · simp only [isTokenValid, decide_eq_true_eq]
    omega
  · simp only [isTokenValid, decide_eq_false_iff_not, not_lt]
    omega

/-- **C8.** While the cached token passes the 60-second margin,
`getAccessToken` is idempotent: two sequential calls (at times `n1`, `n2`,
both within the margin) return the identical cached token string, leave the
state unchanged, and issue zero network requests (no handshake). -/
theorem getAccessToken_idempotent (handshake : Unit → AuthTokens × Nat)
    (t : AuthTokens) (n1 n2 : Int)
    (h1 : isTokenValid t n1 = true) (h2 : isTokenValid t n2 = true) :
    getAccessToken handshake (some t) n1 = (t.access_token, some t, 0)
    ∧ getAccessToken handshake
        (getAccessToken handshake (some t) n1).2.1 n2
      = (t.access_token, some t, 0) := by
  constructor
  · simp [getAccessToken, h1]
  · simp [getAccessToken, h1, h2]

/-- Witness for C8: a concrete token valid at both call instants. -/
theorem getAccessToken_idempotent_witness :
    getAccessToken (fun _ => (⟨"fresh", none, 0⟩, 3))
        (some ⟨"tok", none, 1000000⟩) 100 = ("tok", some ⟨"tok", none, 1000000⟩, 0)
    ∧ getAccessToken (fun _ => (⟨"fresh", none, 0⟩, 3))
        (getAccessToken (fun _ => (⟨"fresh", none, 0⟩, 3))
          (some ⟨"tok", none, 1000000⟩) 100).2.1 200
      = ("tok", some ⟨"tok", none, 1000000⟩, 0) :=
  getAccessToken_idempotent (fun _ => (⟨"fresh", none, 0⟩, 3))
    ⟨"tok", none, 1000000⟩ 100 200 (by decide) (by decide)

/-- **C10.** If the token-exchange response has an access token but no
`expires_in`, the stored expiry instant is exactly 86400 seconds (86400000 ms)
after the completion time `now`, so the token is valid precisely until 60
seconds before that instant; the optional refresh token is stored as-is. -/
theorem storeTokens_default_expiry (now : Int) (td : TokenResponse) (tok : String)
    (ha : td.access_token = some tok) (he : td.expires_in = none) :
    ∃ stored : AuthTokens,
      storeTokens now td = .ok stored
      ∧ stored.access_token = tok
      ∧ stored.refresh_token = td.refresh_token
      ∧ stored.expires_at = now + 86400 * 1000
      ∧ ∀ t : Int, isTokenValid stored t = true ↔ t < now + 86400 * 1000 - 60000 := by
  refine ⟨{ access_token := tok, refresh_token := td.refresh_token,
            expires_at := now + 86400 * 1000 }, ?_, rfl, rfl, rfl, ?_⟩
  · simp [storeTokens, ha, he]
  · intro t
    simp [isTokenValid]

/-- **C2.** Delivery-day status precedence: on any upcoming day,
`canEdit = false` yields `locked` regardless of `skip`/`isPaused`;
else `skip = true` yields `skipped` regardless of `isPaused`;
else `isPaused = true` yields `paused`; else `active`. -/
theorem formatDelivery_status_precedence (day : UpcomingDay) :
    (formatDelivery { day with canEdit := false }).status = DeliveryStatus.locked
    ∧ (formatDelivery { day with canEdit := true, skip := true }).status
        = DeliveryStatus.skipped
    ∧ (formatDelivery { day with canEdit := true, skip := false, isPaused := true }).status
        = DeliveryStatus.paused
    ∧ (formatDelivery { day with canEdit := true, skip := false, isPaused := false }).status
        = DeliveryStatus.active :=
  ⟨rfl, rfl, rfl, rfl⟩

/-- Skipping a prefix of hops that carry a location but no code advances the
redirect loop one hop per iteration. -/
theorem followAux_skip (resp : Nat → HopResp) :
    ∀ (N i fuel : Nat), N ≤ fuel →
      (∀ j, j < N → ((resp (i + j)).location.isSome = true ∧ (resp (i + j)).code = none)) →
      followAux resp i fuel = followAux resp (i + N) (fuel - N) := by
  intro N
  induction N with
  | zero => intro i fuel _ _; simp
  | succ n ih =>
    intro i fuel hle h
    obtain ⟨f, rfl⟩ : ∃ f, fuel = f + 1 := ⟨fuel - 1, by omega⟩
    have h0 := h 0 (Nat.succ_pos n)
    obtain ⟨u, hu⟩ := Option.isSome_iff_exists.mp h0.1
    have hc : (resp i).code = none := by simpa using h0.2
    rw [show i + 0 = i by omega] at hu
    have step : followAux resp i (f + 1) = followAux resp (i + 1) f := by
      simp [followAux, hu, hc]
    rw [step]
    have h2 : i + (n + 1) = (i + 1) + n := by omega
    have h3 : f + 1 - (n + 1) = f - n := by omega
    rw [h2, h3]
    exact ih (i + 1) f (by omega)
      (fun j hj => by
        have := h (j + 1) (by omega)
        constructor
        · simpa [Nat.add_assoc, Nat.add_comm 1 j] using this.1
        · simpa [Nat.add_assoc, Nat.add_comm 1 j] using this.2)

/-- **C3.** The authorize redirect loop is capped at 5 hops: if the first `N`
hops (with `N + 1` within the cap) redirect without a code and hop `N` carries
a code `c`, exactly `N + 1` hops are requested and `c` is returned; if all 5
permitted hops redirect without a code, the attempt fails with the
authorization-code error. -/
theorem getAuthCode_bounded (resp : Nat → HopResp) :
    (∀ (N : Nat) (c : String), N < 5 →
      (∀ j, j < N → ((resp j).location.isSome = true ∧ (resp j).code = none)) →
      (resp N).location.isSome = true → (resp N).code = some c →
      getAuthCode resp = .ok (c, N + 1))
    ∧ ((∀ j, j < 5 → ((resp j).location.isSome = true ∧ (resp j).code = none)) →
      getAuthCode resp = .error "Failed to obtain authorization code") := by
  constructor
  · intro N c hN hpre hloc hcode
    have hskip := followAux_skip resp N 0 5 (by omega)
      (fun j hj => by simpa using hpre j hj)
    obtain ⟨u, hu⟩ := Option.isSome_iff_exists.mp hloc
    obtain ⟨f, hf⟩ : ∃ f, 5 - N = f + 1 := ⟨4 - N, by omega⟩
    rw [Nat.zero_add] at hskip
    rw [hf] at hskip
    have : followAux resp N (f + 1) = .ok (some c, N + 1) := by
      simp [followAux, hu, hcode]
    rw [this] at hskip
    simp [getAuthCode, hskip]
  · intro h
    have hskip := followAux_skip resp 5 0 5 (by omega)
      (fun j hj => by simpa using h j hj)
    rw [Nat.zero_add] at hskip
    simp only [Nat.sub_self] at hskip
    have hres : followAux resp 0 5 = Except.ok (none, 5) := by
      rw [hskip]; simp [followAux]
    simp [getAuthCode, hres]

/-- Witness for C3: a chain of two code-less redirects followed by a hop whose
location carries the code returns that code after exactly 3 hops; a chain
that is still code-less at the 5-hop cap fails. -/
theorem getAuthCode_bounded_witness :
    getAuthCode (fun j => match j with
      | 0 => ⟨some "hopA", none⟩
      | 1 => ⟨some "hopB", none⟩
      | _ => ⟨some "callback", some "AC123"⟩) = .ok ("AC123", 3)
    ∧ getAuthCode (fun _ => ⟨some "hop", none⟩)
        = .error "Failed to obtain authorization code" :=
  ⟨(getAuthCode_bounded (fun j => match j with
      | 0 => ⟨some "hopA", none⟩
      | 1 => ⟨some "hopB", none⟩
      | _ => ⟨some "callback", some "AC123"⟩)).1 2 "AC123" (by omega)
      (fun j hj => by interval_cases j <;> exact ⟨rfl, rfl⟩) rfl rfl,
   (getAuthCode_bounded (fun _ => ⟨some "hop", none⟩)).2
      (fun j _ => ⟨rfl, rfl⟩)⟩

/-- **C5 counterexample.** For the invoice listing the claim fails: with a
45-invoice upstream collection and `offset = 20, limit = 20` (forwarded
upstream, which returns the 20-element slice), the order-history handler
reports `total = 20`, not the full collection length 45 — and its output
shape (`OrderHistoryOutput`) has no `has_more`/`next_offset` at all. -/
theorem orderHistory_pagination_counterexample :
    (orderHistoryOutput (invoicesUpstream (List.range 45) 20 20) 20).total = 20
    ∧ (orderHistoryOutput (invoicesUpstream (List.range 45) 20 20) 20).total
        ≠ (List.range 45).length := by
  constructor <;> decide

/-- **C5 (amended).** For the menu, search and list-orders handlers
pagination is computed locally after fetching: `total` is the full filtered
collection length, the page is the slice `[offset, offset+limit)`, `count`
its length, `has_more` holds exactly when `total` exceeds `offset + count`,
and `next_offset` (equal to `offset + count`) is present exactly when
`has_more` — with the 45-item examples of the spec at offsets 20 and 40.  The
invoice listing instead forwards offset/limit upstream and reports `total`
as the returned page length, with no `has_more`/`next_offset`. -/
theorem paginate_properties {α : Type} (items : List α) (offset limit : Nat) :
    (paginate items offset limit).total = items.length
    ∧ (paginate items offset limit).items = (items.drop offset).take limit
    ∧ (paginate items offset limit).count = (paginate items offset limit).items.length
    ∧ ((paginate items offset limit).has_more = true
        ↔ items.length > offset + (paginate items offset limit).count)
    ∧ ((paginate items offset limit).next_offset
          = some (offset + (paginate items offset limit).count)
        ↔ (paginate items offset limit).has_more = true)
    ∧ ((paginate items offset limit).next_offset = none
        ↔ (paginate items offset limit).has_more = false)
    ∧ (paginate (List.range 45) 20 20).count = 20
    ∧ (paginate (List.range 45) 20 20).has_more = true
    ∧ (paginate (List.range 45) 20 20).next_offset = some 40
    ∧ (paginate (List.range 45) 40 20).count = 5
    ∧ (paginate (List.range 45) 40 20).has_more = false
    ∧ (paginate (List.range 45) 40 20).next_offset = none
    ∧ ∀ (invs : List α) (o : Nat), (orderHistoryOutput invs o).total = invs.length := by
  refine ⟨rfl, rfl, rfl, ?_, ?_, ?_, by decide, by decide, by decide,
    by decide, by decide, by decide, fun invs o => rfl⟩
  · simp [paginate]
  · by_cases hP : items.length > offset + ((items.drop offset).take limit).length <;>
      simp [paginate, hP]
  · by_cases hP : items.length > offset + ((items.drop offset).take limit).length <;>
      simp [paginate, hP]

/-- **C6.** Client-side keyword search: a meal is kept iff it is in the
fetched menu and the lowercased query is a substring of its lowercased name,
short description, a cuisine tag, a diet tag, an ingredient, a protein tag,
the concatenated chef first+last name, or the category title; the result is
a sublist of the source menu (order preserved, no ranking).  Concretely,
"salmon" finds the "Grilled Salmon Bowl" meal and "vegan" does not. -/
theorem searchMeals_spec (keyword : String) (menu : Menu) (meal : Meal) :
    (meal ∈ searchMeals keyword menu ↔
      meal ∈ menu.meals
      ∧ ((strToLower keyword).data <:+: (strToLower meal.name).data
        ∨ (strToLower keyword).data <:+: (strToLower meal.shortDescription).data
        ∨ (∃ c ∈ meal.searchBy.cuisines,
            (strToLower keyword).data <:+: (strToLower c).data)
        ∨ (∃ t ∈ meal.searchBy.dietTags,
            (strToLower keyword).data <:+: (strToLower t).data)
        ∨ (∃ i ∈ meal.searchBy.ingredients,
            (strToLower keyword).data <:+: (strToLower i).data)
        ∨ (∃ p ∈ meal.searchBy.proteinTags,
            (strToLower keyword).data <:+: (strToLower p).data)
        ∨ (strToLower keyword).data <:+:
            (strToLower
              (meal.searchBy.chefFirstName ++ " " ++ meal.searchBy.chefLastName)).data
        ∨ (strToLower keyword).data <:+: (strToLower meal.category.title).data))
    ∧ (searchMeals keyword menu).Sublist menu.meals
    ∧ salmonMeal ∈ searchMeals "salmon" salmonMenu
    ∧ salmonMeal ∉ searchMeals "vegan" salmonMenu := by
  refine ⟨?_, List.filter_sublist _, by decide, by decide⟩
  simp [searchMeals, List.mem_filter, mealMatches, strIncludes,
    List.any_eq_true, or_assoc]

/-- Helper: the first character of a string survives appending. -/
theorem head_data_append (s t : String) (c : Char)
    (h : s.data.head? = some c) : (s ++ t).data.head? = some c := by
  rw [String.data_append]
  cases hs : s.data with
  | nil => rw [hs] at h; exact absurd h (by simp)
  | cons x xs =>
    rw [hs] at h
    simpa using h

/-- **C7.** GraphQL error taxonomy: HTTP 401 yields the dedicated
credentials message, HTTP 429 the dedicated rate-limit message, any other
HTTP failure the generic transport message carrying the status code; the
three are pairwise distinct; and a 2xx body carrying a GraphQL error list
fails with the comma-joined consolidated message. -/
theorem executeGraphQL_taxonomy {δ : Type} :
    (∀ m : String, executeGraphQL (δ := δ) (.httpFailure (some 401) m)
      = .error "Authentication expired. Please check your COOKUNITY_EMAIL and COOKUNITY_PASSWORD.")
    ∧ (∀ m : String, executeGraphQL (δ := δ) (.httpFailure (some 429) m)
      = .error "Rate limited by CookUnity API. Please wait before retrying.")
    ∧ (∀ (s : Nat) (m : String), s ≠ 401 → s ≠ 429 →
      executeGraphQL (δ := δ) (.httpFailure (some s) m)
        = .error ("CookUnity API error (HTTP " ++ toString s ++ "): " ++ m)
      ∧ strIncludes ("CookUnity API error (HTTP " ++ toString s ++ "): " ++ m)
          (toString s) = true
      ∧ ("CookUnity API error (HTTP " ++ toString s ++ "): " ++ m)
          ≠ "Authentication expired. Please check your COOKUNITY_EMAIL and COOKUNITY_PASSWORD."
      ∧ ("CookUnity API error (HTTP " ++ toString s ++ "): " ++ m)
          ≠ "Rate limited by CookUnity API. Please wait before retrying.")
    ∧ ("Authentication expired. Please check your COOKUNITY_EMAIL and COOKUNITY_PASSWORD."
        ≠ "Rate limited by CookUnity API. Please wait before retrying.")
    ∧ (∀ (body : GraphQLBody δ) (errs : List String), body.errors = some errs →
      executeGraphQL (.success body)
        = .error ("GraphQL errors: " ++ String.intercalate ", " errs)) := by
  refine ⟨fun m => rfl, fun m => rfl, ?_, by decide, ?_⟩
  · intro s m h1 h2
    have hc : ((("CookUnity API error (HTTP " ++ toString s) ++ "): ") ++ m).data.head?
        = some 'C' :=
      head_data_append _ _ _ (head_data_append _ _ _ (head_data_append _ _ _ rfl))
    refine ⟨?_, ?_, ?_, ?_⟩
    · simp [executeGraphQL, h1, h2]
    · rw [strIncludes, decide_eq_true_eq]
      exact ⟨"CookUnity API error (HTTP ".data, "): ".data ++ m.data,
        by simp [String.data_append]⟩
    · intro h
      rw [h] at hc
      exact absurd hc (by decide)
    · intro h
      rw [h] at hc
      exact absurd hc (by decide)
  · intro body errs h
    simp [executeGraphQL, h]

/-- Witness for C7: HTTP 500 yields the generic transport message, and a
body with two GraphQL errors yields the joined message. -/
theorem executeGraphQL_taxonomy_witness :
    executeGraphQL (δ := Nat) (.httpFailure (some 500) "boom")
      = .error ("CookUnity API error (HTTP " ++ toString 500 ++ "): " ++ "boom")
    ∧ executeGraphQL (δ := Nat) (.success ⟨7, some ["e1", "e2"]⟩)
      = .error ("GraphQL errors: " ++ String.intercalate ", " ["e1", "e2"]) :=
  ⟨((executeGraphQL_taxonomy (δ := Nat)).2.2.1 500 "boom"
      (by decide) (by decide)).1,
   (executeGraphQL_taxonomy (δ := Nat)).2.2.2.2 ⟨7, some ["e1", "e2"]⟩
      ["e1", "e2"] rfl⟩

/-- **C4 counterexample.** A confirm-order call whose target date has an
empty cart does fail with the empty-cart precondition error, but not before
any network call: the fresh upcoming-days (cart) fetch has already been
issued, so the list of upstream requests is not empty. -/
theorem confirmOrder_empty_cart_counterexample :
    (confirmOrder
        { upcomingDays := [emptyCartDay]
          userInfo := Except.error "unused"
          createOrder := CreateOrderResult.creation "o1" } "2026-03-02").1
      = ConfirmResult.emptyCart "2026-03-02"
    ∧ (confirmOrder
        { upcomingDays := [emptyCartDay]
          userInfo := Except.error "unused"
          createOrder := CreateOrderResult.creation "o1" } "2026-03-02").2
      ≠ ([] : List UpstreamRequest) := by
  constructor <;> decide

/-- **C4 (amended).** For every confirm-order call whose target date has an
empty (or missing) cart, the handler fails with the empty-cart precondition
error before the profile lookup and before the order-creation mutation: the
only upstream request issued is the fresh cart (upcoming-days) fetch that
the check itself requires. -/
theorem confirmOrder_empty_cart (env : ConfirmEnv) (date : String)
    (day : UpcomingDay)
    (hfind : env.upcomingDays.find? (fun d => d.date == date) = some day)
    (hcart : day.cart = none ∨ day.cart = some []) :
    confirmOrder env date
      = (ConfirmResult.emptyCart date, [UpstreamRequest.upcomingDaysReq]) := by
  rcases hcart with h | h <;> simp [confirmOrder, hfind, h]

/-- Witness for C4 (amended): the concrete empty-cart day. -/
theorem confirmOrder_empty_cart_witness :
    confirmOrder
        { upcomingDays := [emptyCartDay]
          userInfo := Except.error "unused"
          createOrder := CreateOrderResult.creation "o1" } "2026-03-02"
      = (ConfirmResult.emptyCart "2026-03-02", [UpstreamRequest.upcomingDaysReq]) :=
  confirmOrder_empty_cart
    { upcomingDays := [emptyCartDay]
      userInfo := Except.error "unused"
      createOrder := CreateOrderResult.creation "o1" } "2026-03-02"
    emptyCartDay (by decide) (Or.inr rfl)

/-- **C9.** During order confirmation the delivery window comes from the
first configured delivery-day window of the user profile; if the profile
lookup fails, for any error, that error is swallowed, the fixed default
window 11:00–20:00 is used, and the order proceeds: the create-order
mutation is still issued (with the default window) and its outcome alone
determines the result. -/
theorem confirmOrder_window_fallback (env : ConfirmEnv) (date : String)
    (day : UpcomingDay) (c : CartEntry) (cs : List CartEntry)
    (hfind : env.upcomingDays.find? (fun d => d.date == date) = some day)
    (hcart : day.cart = some (c :: cs)) :
    (∀ (u : UserInfo) (d : DeliveryDay) (ds : List DeliveryDay),
      env.userInfo = .ok u → u.deliveryDays = some (d :: ds) →
      deliveryWindow env.userInfo
        = (d.time_start.getD "11:00", d.time_end.getD "20:00"))
    ∧ (∀ e : String, env.userInfo = .error e →
      confirmOrder env date
        = (orderOutcome env.createOrder,
           [UpstreamRequest.upcomingDaysReq, UpstreamRequest.userInfoReq,
            UpstreamRequest.createOrderReq "11:00" "20:00"
              ((c :: cs).map fun item =>
                (item.qty, item.product.bind CartProduct.inventoryId))])) := by
  constructor
  · intro u d ds hu hd
    simp [deliveryWindow, hu, hd]
  · intro e he
    simp [confirmOrder, hfind, hcart, deliveryWindow, he]

/-- Witness for C9: a one-line cart and a failing profile lookup yield the
default 11:00–20:00 window on the issued create-order request. -/
theorem confirmOrder_window_fallback_witness :
    confirmOrder
        { upcomingDays := [{ emptyCartDay with
            cart := some [{ product := none, qty := 2 }] }]
          userInfo := Except.error "profile fetch failed"
          createOrder := CreateOrderResult.creation "o9" } "2026-03-02"
      = (orderOutcome (CreateOrderResult.creation "o9"),
         [UpstreamRequest.upcomingDaysReq, UpstreamRequest.userInfoReq,
          UpstreamRequest.createOrderReq "11:00" "20:00"
            ([({ product := none, qty := 2 } : CartEntry)].map fun item =>
              (item.qty, item.product.bind CartProduct.inventoryId))]) :=
  (confirmOrder_window_fallback
    { upcomingDays := [{ emptyCartDay with
        cart := some [{ product := none, qty := 2 }] }]
      userInfo := Except.error "profile fetch failed"
      createOrder := CreateOrderResult.creation "o9" } "2026-03-02"
    { emptyCartDay with cart := some [{ product := none, qty := 2 }] }
    { product := none, qty := 2 } [] (by decide) rfl).2
    "profile fetch failed" rfl

/-- Witness for C10: a concrete token-exchange body with no `expires_in`. -/
theorem storeTokens_default_expiry_witness :
    ∃ stored : AuthTokens,
      storeTokens 1000 ⟨some "acc", some "ref", none⟩ = .ok stored
      ∧ stored.access_token = "acc"
      ∧ stored.refresh_token = (⟨some "acc", some "ref", none⟩ : TokenResponse).refresh_token
      ∧ stored.expires_at = 1000 + 86400 * 1000
      ∧ ∀ t : Int, isTokenValid stored t = true ↔ t < 1000 + 86400 * 1000 - 60000 :=
  storeTokens_default_expiry 1000 ⟨some "acc", some "ref", none⟩ "acc" rfl rfl

end CookUnity
